import Mathlib

/-
Verification of the miniworkerpool repository (src/pool.go and the
identical second revision src/unnamed/part_000).

The Go program is a bounded worker pool.  Its state is a `Pool` struct
with a `preAlloc` flag, a `capacity` int field, an `active` buffered
channel of size equal to the clamped caller capacity (the semaphore), an
unbuffered `tasks` channel, a `sync.WaitGroup` `wg`, and a `quit` channel.

We embed the pure parts (capacity clamping, the pre-allocation loop of
`New`, the `select` of `Schedule`, `close` of `quit` in `Free`) as Lean
functions, and the concurrent behaviour after construction as a
small-step transition relation on an explicit pool state.
-/

namespace MiniWorkerPool

/-- Go constant `defaultCapacity = 100` (pool.go line 28). -/
def defaultCapacity : Int := 100

/-- Go constant `maxCapacity = 1000` (pool.go line 29). -/
def maxCapacity : Int := 1000

/-- The two sequential clamping ifs at the top of `New` (pool.go lines
33-39): `if capacity < 0 { capacity = defaultCapacity }` then
`if capacity > maxCapacity { capacity = defaultCapacity }`.  The result
is the size of the `active` channel buffer (the semaphore). -/
def clampCapacity (c : Int) : Int :=
  let c1 := if c < 0 then defaultCapacity else c
  if c1 > maxCapacity then defaultCapacity else c1

/-- State of a single worker goroutine between its observable actions:
either blocked in its `select` (idle) or running a task; `running true`
means the task it runs will panic. -/
inductive WorkerState
  | idle
  | running (faulty : Bool)
deriving DecidableEq

/-- A live worker goroutine: the `id` passed to `newWorker` plus its
current state. -/
structure Worker where
  id : Nat
  st : WorkerState
deriving DecidableEq

/-- The pre-allocation loop of `New` (pool.go lines 55-60):
`for i := 1; i <= p.capacity; i++ { p.newWorker(i); p.active <- struct{}{} }`.
`remaining` counts loop iterations left (it starts at `p.capacity`),
`spawned` counts calls to `newWorker`, `tokens` counts values buffered in
the `active` channel, `cap` is the channel buffer size.  During
construction no worker ever receives from `active` (workers receive from
it only on quit or panic), so the send `p.active <- struct{}{}` succeeds
exactly when the buffer is not full; otherwise the constructor blocks
forever and we return `returned = false` with the spawn count reached. -/
def preAllocLoop : Nat → Nat → Nat → Nat → Nat × Nat × Bool
  | 0, spawned, tokens, _ => (spawned, tokens, true)
  | r + 1, spawned, tokens, cap =>
    if tokens < cap then preAllocLoop r (spawned + 1) (tokens + 1) cap
    else (spawned + 1, tokens, false)

/-- Observable outcome of `New` (pool.go lines 32-66): the semaphore
size (`active` buffer), how many workers `newWorker` spawned before the
constructor returned or blocked, how many tokens sit in `active`, and
whether the constructor returned at all. -/
structure NewOutcome where
  semSize : Nat
  spawned : Nat
  tokens : Nat
  returned : Bool
deriving DecidableEq

/-- The constructor `New` (pool.go lines 32-66).  The struct literal sets
`capacity: defaultCapacity` (line 42) — the caller capacity only sizes the
`active` channel (line 43) — so the pre-allocation loop bound is always
`defaultCapacity`, not the caller capacity. -/
def NewModel (capacity : Int) (preAlloc : Bool) : NewOutcome :=
  let semSize := (clampCapacity capacity).toNat
  if preAlloc then
    let r := preAllocLoop defaultCapacity.toNat 0 0 semSize
    ⟨semSize, r.1, r.2.1, r.2.2⟩
  else
    ⟨semSize, 0, 0, true⟩

/-- The `close(p.quit)` call opening `Free` (pool.go line 115).  In Go,
closing an already-closed channel panics at runtime: `some` models a
successful close, `none` models the runtime panic. -/
def closeQuitChan (alreadyClosed : Bool) : Option Unit :=
  if alreadyClosed then none else some ()

/-- Outcome of the `select` in `Schedule` (pool.go lines 120-127). -/
inductive ScheduleResult
  | delivered
  | poolClosed
  | blocked
deriving DecidableEq

/-- The `select` of `Schedule` (pool.go lines 121-126) racing
`<-p.quit` against `p.tasks <- t`.  `quitClosed` says whether `Free` has
closed `quit`; `receiverReady` says whether some worker is blocked on
`t := <-p.tasks`; `pick` resolves Go's uniform random choice when both
cases are ready.  With no ready case the caller blocks. -/
def scheduleSelect (quitClosed receiverReady pick : Bool) : ScheduleResult :=
  if quitClosed && receiverReady then
    if pick then ScheduleResult.delivered else ScheduleResult.poolClosed
  else if quitClosed then ScheduleResult.poolClosed
  else if receiverReady then ScheduleResult.delivered
  else ScheduleResult.blocked

/-- Pool state after `New` has returned.  `activeCap` is the `active`
channel buffer size, `tokens` the number of empty-struct values currently
buffered in `active`, `workers` the live worker goroutines, `nextId` the
`id` counter local to `run` (pool.go line 75), `quitClosed` whether
`close(p.quit)` has happened, `wg` the WaitGroup counter,
`dispatcherDone` whether `run` has returned, and `usedIds` the history of
every id ever passed to `newWorker`. -/
structure PoolState where
  activeCap : Nat
  tokens : Nat
  workers : List Worker
  nextId : Nat
  quitClosed : Bool
  wg : Nat
  dispatcherDone : Bool
  usedIds : List Nat
deriving DecidableEq

/-- Interleaving semantics of the pool: one constructor per atomic
observable action of the Go code.

* `spawn`: in `run` (pool.go lines 80-82) the case `p.active <- struct{}{}`
  fires — it requires buffer room — then `id++` and `p.newWorker(id)`,
  which does `wg.Add(1)` and starts an idle worker goroutine.  Go `select`
  picks uniformly among ready cases, so this case may fire even after
  `quit` is closed.
* `dispatcherExit`: the `<-p.quit` case of `run` (pool.go lines 78-79).
* `closeQuit`: `close(p.quit)` at the start of `Free` (pool.go line 115).
* `receiveTask`: an idle worker's `t := <-p.tasks` case (pool.go line
  106) rendezvousing with a `Schedule` sender; `f` records whether the
  received task will panic.  Again no quit guard: `select` may pick this
  case after `quit` is closed.
* `finishTask`: `t()` (pool.go line 108) returns normally and the worker
  loops back to its `select`.
* `panicExit`: `t()` panics; the deferred `recover` (pool.go lines 90-96)
  fires, does `<-p.active` and `wg.Done()`, and only this goroutine exits.
* `quitExit`: an idle worker's `<-p.quit` case (pool.go lines 102-105):
  it does `<-p.active`, returns, and the deferred `wg.Done()` runs. -/
inductive Step : PoolState → PoolState → Prop
  | spawn (s : PoolState) :
      s.dispatcherDone = false → s.tokens < s.activeCap →
      Step s { s with
                tokens := s.tokens + 1,
                nextId := s.nextId + 1,
                workers := s.workers ++ [⟨s.nextId + 1, WorkerState.idle⟩],
                wg := s.wg + 1,
                usedIds := s.usedIds ++ [s.nextId + 1] }
  | dispatcherExit (s : PoolState) :
      s.quitClosed = true → s.dispatcherDone = false →
      Step s { s with dispatcherDone := true }
  | closeQuit (s : PoolState) :
      s.quitClosed = false →
      Step s { s with quitClosed := true }
  | receiveTask (s : PoolState) (l₁ l₂ : List Worker) (i : Nat) (f : Bool) :
      s.workers = l₁ ++ ⟨i, WorkerState.idle⟩ :: l₂ →
      Step s { s with workers := l₁ ++ ⟨i, WorkerState.running f⟩ :: l₂ }
  | finishTask (s : PoolState) (l₁ l₂ : List Worker) (i : Nat) :
      s.workers = l₁ ++ ⟨i, WorkerState.running false⟩ :: l₂ →
      Step s { s with workers := l₁ ++ ⟨i, WorkerState.idle⟩ :: l₂ }
  | panicExit (s : PoolState) (l₁ l₂ : List Worker) (i : Nat) :
      s.workers = l₁ ++ ⟨i, WorkerState.running true⟩ :: l₂ →
      1 ≤ s.tokens →
      Step s { s with
                workers := l₁ ++ l₂,
                tokens := s.tokens - 1,
                wg := s.wg - 1 }
  | quitExit (s : PoolState) (l₁ l₂ : List Worker) (i : Nat) :
      s.quitClosed = true →
      s.workers = l₁ ++ ⟨i, WorkerState.idle⟩ :: l₂ →
      1 ≤ s.tokens →
      Step s { s with
                workers := l₁ ++ l₂,
                tokens := s.tokens - 1,
                wg := s.wg - 1 }

/-- States reachable from a given initial state by `Step`. -/
inductive Reachable (init : PoolState) : PoolState → Prop
  | refl : Reachable init init
  | step {s s' : PoolState} : Reachable init s → Step s s' → Reachable init s'

/-- State right after `New` returns without pre-allocation: the `active`
channel (buffer size `cc`, the clamped caller capacity) is empty, no
worker exists, `run` starts with `id = 0`. -/
def initState (cc : Nat) : PoolState :=
  ⟨cc, 0, [], 0, false, 0, false, []⟩

/-- The workers spawned by the pre-allocation loop: ids 1 through `n`,
all idle. -/
def idleWorkers (n : Nat) : List Worker :=
  (List.range n).map fun i => ⟨i + 1, WorkerState.idle⟩

/-- State right after `New` returns with pre-allocation, which happens
exactly when the clamped caller capacity `cc` is at least
`p.capacity = defaultCapacity = 100`: the loop has spawned workers with
ids 1..100 and buffered 100 tokens, and `run` starts with `id = 0`. -/
def preAllocState (cc : Nat) : PoolState :=
  ⟨cc, 100, idleWorkers 100, 0, false, 100, false,
   (List.range 100).map (· + 1)⟩

/-- Whether some worker is blocked on `t := <-p.tasks`, i.e. is a ready
receiver for the `p.tasks <- t` case of `Schedule`. -/
def hasIdleWorker (s : PoolState) : Bool :=
  s.workers.any fun w => decide (w.st = WorkerState.idle)

/-- The core accounting invariant of the pool: the tokens buffered in
`active` equal the number of live workers, the WaitGroup counter does
too, the token count never exceeds the buffer size, and the dispatcher
only returns after `quit` is closed. -/
def Inv (s : PoolState) : Prop :=
  s.tokens = s.workers.length ∧ s.wg = s.workers.length ∧
  s.tokens ≤ s.activeCap ∧ (s.dispatcherDone = true → s.quitClosed = true)

theorem inv_initState (cc : Nat) : Inv (initState cc) := by
  refine ⟨rfl, rfl, ?_, ?_⟩ <;> simp [initState, Inv]

theorem inv_preAllocState (cc : Nat) (h : 100 ≤ cc) :
    Inv (preAllocState cc) := by
  refine ⟨?_, ?_, ?_, ?_⟩ <;>
    simp [preAllocState, Inv, idleWorkers, h]

theorem inv_step {s s' : PoolState} (hs : Inv s) (hst : Step s s') :
    Inv s' := by
  obtain ⟨h1, h2, h3, h4⟩ := hs
  cases hst with
  | spawn hd ht =>
    refine ⟨?_, ?_, ?_, ?_⟩ <;> simp_all <;> omega
  | dispatcherExit hq hd =>
    exact ⟨h1, h2, h3, fun _ => hq⟩
  | closeQuit hq =>
    exact ⟨h1, h2, h3, fun _ => rfl⟩
  | receiveTask l₁ l₂ i f hw =>
    refine ⟨?_, ?_, h3, h4⟩ <;> simp_all
  | finishTask l₁ l₂ i hw =>
    refine ⟨?_, ?_, h3, h4⟩ <;> simp_all
  | panicExit l₁ l₂ i hw ht =>
    refine ⟨?_, ?_, ?_, h4⟩ <;> simp_all <;> omega
  | quitExit l₁ l₂ i hq hw ht =>
    refine ⟨?_, ?_, ?_, h4⟩ <;> simp_all <;> omega

theorem inv_reachable {init s : PoolState} (h0 : Inv init)
    (h : Reachable init s) : Inv s := by
  induction h with
  | refl => exact h0
  | step _ hst ih => exact inv_step ih hst

theorem activeCap_step {s s' : PoolState} (h : Step s s') :
    s'.activeCap = s.activeCap := by
  cases h <;> rfl

theorem activeCap_reachable {init s : PoolState} (h : Reachable init s) :
    s.activeCap = init.activeCap := by
  induction h with
  | refl => rfl
  | step _ hst ih => rw [activeCap_step hst, ih]

/-- Identity bookkeeping of the dispatcher `run`: the ids handed out so
far are exactly increasing and all bounded by the current counter.  This
holds for pools built without pre-allocation, where every spawn goes
through `run` (pool.go lines 74-85). -/
def IdInv (s : PoolState) : Prop :=
  s.usedIds.Pairwise (· < ·) ∧ ∀ i ∈ s.usedIds, i ≤ s.nextId

theorem idInv_step {s s' : PoolState} (hs : IdInv s) (hst : Step s s') :
    IdInv s' := by
  obtain ⟨h1, h2⟩ := hs
  cases hst with
  | spawn hd ht =>
    refine ⟨?_, ?_⟩ <;> dsimp only
    · refine List.pairwise_append.mpr ⟨h1, List.pairwise_singleton _ _, ?_⟩
      intro a ha b hb
      simp only [List.mem_singleton] at hb
      subst hb
      exact Nat.lt_succ_of_le (h2 a ha)
    · intro i hi
      rcases List.mem_append.mp hi with hi | hi
      · exact Nat.le_succ_of_le (h2 i hi)
      · simp only [List.mem_singleton] at hi
        omega
  | dispatcherExit hq hd => exact ⟨h1, h2⟩
  | closeQuit hq => exact ⟨h1, h2⟩
  | receiveTask l₁ l₂ i f hw => exact ⟨h1, h2⟩
  | finishTask l₁ l₂ i hw => exact ⟨h1, h2⟩
  | panicExit l₁ l₂ i hw ht => exact ⟨h1, h2⟩
  | quitExit l₁ l₂ i hq hw ht => exact ⟨h1, h2⟩

theorem idInv_reachable {cc : Nat} {s : PoolState}
    (h : Reachable (initState cc) s) : IdInv s := by
  induction h with
  | refl => exact ⟨List.Pairwise.nil, by simp [initState]⟩
  | step _ hst ih => exact idInv_step ih hst

/-- Every step that removes a worker removes one that was idle (it
observed `quit` while between tasks) or one whose running task panicked;
a worker in the middle of a normally-terminating task is never removed. -/
theorem exit_only_idle_or_faulted {s s' : PoolState} (h : Step s s')
    (hlen : s'.workers.length < s.workers.length) :
    ∃ l₁ i l₂,
      (s.quitClosed = true ∧ s.workers = l₁ ++ ⟨i, WorkerState.idle⟩ :: l₂ ∧
        s'.workers = l₁ ++ l₂) ∨
      (s.workers = l₁ ++ ⟨i, WorkerState.running true⟩ :: l₂ ∧
        s'.workers = l₁ ++ l₂) := by
  cases h with
  | spawn hd ht => simp at hlen
  | dispatcherExit hq hd => simp at hlen
  | closeQuit hq => simp at hlen
  | receiveTask l₁ l₂ i f hw => rw [hw] at hlen; simp at hlen
  | finishTask l₁ l₂ i hw => rw [hw] at hlen; simp at hlen
  | panicExit l₁ l₂ i hw ht => exact ⟨l₁, i, l₂, Or.inr ⟨hw, rfl⟩⟩
  | quitExit l₁ l₂ i hq hw ht => exact ⟨l₁, i, l₂, Or.inl ⟨hq, hw, rfl⟩⟩

theorem clampCapacity_eq (c : Int) :
    clampCapacity c =
      if c < 0 ∨ maxCapacity < c then defaultCapacity else c := by
  simp only [clampCapacity, defaultCapacity, maxCapacity]
  split_ifs <;> omega

theorem NewModel_semSize (c : Int) (pre : Bool) :
    (NewModel c pre).semSize = (clampCapacity c).toNat := by
  cases pre <;> rfl

theorem usedIds_empty_zero_cap {s : PoolState}
    (h : Reachable (initState 0) s) : s.usedIds = [] := by
  induction h with
  | refl => rfl
  | step hr hst ih =>
    have hc := activeCap_reachable hr
    simp only [initState] at hc
    cases hst with
    | spawn hd ht => rw [hc] at ht; omega
    | dispatcherExit hq hd => exact ih
    | closeQuit hq => exact ih
    | receiveTask l₁ l₂ i f hw => exact ih
    | finishTask l₁ l₂ i hw => exact ih
    | panicExit l₁ l₂ i hw ht => exact ih
    | quitExit l₁ l₂ i hq hw ht => exact ih

/-- Claim C1 (code bug).  The claim says that with preAllocate(true) and
any accepted capacity C with 0 < C ≤ 1000, exactly C workers are spawned
before the constructor returns.  The code instead loops up to the struct
field `p.capacity`, which the literal at pool.go line 42 hardcodes to
`defaultCapacity = 100` regardless of the caller capacity — only the
`active` buffer honours the caller.  At C = 200 the constructor returns
having spawned 100 workers, not 200.  (At C < 100 it does not return at
all, see the C3 theorem.)  This is the capacity-field inconsistency the
spec itself flags as a bug. -/
theorem C1_prealloc_spawn_count_ignores_capacity :
    (NewModel 200 true).returned = true ∧
    (NewModel 200 true).spawned = 100 ∧
    (NewModel 200 true).spawned ≠ 200 := by decide

/-- Claim C2, counterexample.  With preAllocate(true) and capacity 1 the
pre-allocation loop calls `newWorker` a second time before its blocking
send (pool.go lines 56-59 spawn first, then send), so two workers are
concurrently live while the claim allows at most one. -/
theorem C2_counterexample_prealloc_exceeds_capacity :
    (NewModel 1 true).spawned = 2 ∧ 1 < (NewModel 1 true).spawned := by
  decide

/-- Claim C2 as amended.  In every run from a completed construction —
without pre-allocation for any semaphore size cc, and with pre-allocation
when cc ≥ 100 (the only case in which that construction completes) — the
number of live workers never exceeds cc: every dispatcher spawn first
buffers one token in the size-cc `active` channel and every worker exit
removes one.  With pre-allocation and cc < 100 the constructor itself
makes cc + 1 workers live, as the counterexample shows. -/
theorem C2_live_workers_bounded_by_semaphore :
    (∀ cc s, Reachable (initState cc) s → s.workers.length ≤ cc) ∧
    (∀ cc s, 100 ≤ cc → Reachable (preAllocState cc) s →
      s.workers.length ≤ cc) := by
  constructor
  · intro cc s h
    obtain ⟨h1, _, h3, _⟩ := inv_reachable (inv_initState cc) h
    have hc := activeCap_reachable h
    simp only [initState] at hc
    omega
  · intro cc s hcc h
    obtain ⟨h1, _, h3, _⟩ := inv_reachable (inv_preAllocState cc hcc) h
    have hc := activeCap_reachable h
    simp only [preAllocState] at hc
    omega

theorem C2_live_workers_bounded_witness :
    (initState 3).workers.length ≤ 3 ∧
    (preAllocState 100).workers.length ≤ 100 :=
  ⟨C2_live_workers_bounded_by_semaphore.1 3 _ Reachable.refl,
   C2_live_workers_bounded_by_semaphore.2 100 _ (by decide) Reachable.refl⟩

/-- Claim C3 (code bug).  The claim says New terminates for every
capacity and every option combination, blocking at most for the eager
pre-allocation loop.  With preAllocate(true) and clamped capacity 1, the
loop's second iteration spawns worker 2 and then blocks forever on
`p.active <- struct{}{}`: the buffer of size 1 is full and no goroutine
ever receives from `active` before shutdown (workers only receive from it
on quit or panic).  So `New(1, WithPreAlloc(true))` never returns.
Without pre-allocation the constructor always returns. -/
theorem C3_prealloc_constructor_blocks_forever :
    (NewModel 1 true).returned = false ∧
    (NewModel 1 true).spawned = 2 ∧
    ∀ c : Int, (NewModel c false).returned = true := by
  refine ⟨by decide, by decide, fun c => ?_⟩
  simp [NewModel]

theorem C3_constructor_witness : (NewModel 500 false).returned = true :=
  C3_prealloc_constructor_blocks_forever.2.2 500

/-- Claim C7.  The clamping in New (pool.go lines 33-39): a negative or
greater-than-maxCapacity capacity is replaced by defaultCapacity = 100,
any other capacity sizes the `active` channel (the semaphore) exactly. -/
theorem C7_capacity_clamped :
    ∀ (c : Int) (pre : Bool),
      ((c < 0 ∨ maxCapacity < c) → (NewModel c pre).semSize = 100) ∧
      (0 ≤ c → c ≤ maxCapacity → ((NewModel c pre).semSize : Int) = c) := by
  intro c pre
  constructor
  · intro h
    rw [NewModel_semSize, clampCapacity_eq, if_pos h]
    rfl
  · intro h0 h1
    rw [NewModel_semSize, clampCapacity_eq, if_neg (by omega)]
    exact Int.toNat_of_nonneg h0

theorem C7_capacity_clamped_witness :
    (NewModel (-5) false).semSize = 100 ∧
    ((NewModel 7 true).semSize : Int) = 7 :=
  ⟨(C7_capacity_clamped (-5) false).1 (Or.inl (by decide)),
   (C7_capacity_clamped 7 true).2 (by decide) (by decide)⟩

/-- Claim C8, counterexample.  Free begins with `close(p.quit)` (pool.go
line 115) with no guard; in Go, close of an already-closed channel panics
at runtime (modelled by `none`).  So a second call to Free on the same
pool is a fatal operation, not a safe no-op. -/
theorem C8_counterexample_second_free_panics :
    closeQuitChan true = none ∧ closeQuitChan true ≠ some () := by decide

/-- Claim C8 as amended.  Free is safe to call exactly once: the first
call closes the open quit channel and succeeds; every further call
reaches `close` on an already-closed channel and panics. -/
theorem C8_free_safe_exactly_once :
    closeQuitChan false = some () ∧ closeQuitChan true = none := by decide

/-- Claim C4, counterexample.  Quit has already been closed, yet an idle
worker that has not drained yet is a ready receiver on `tasks`, so both
cases of the `select` in Schedule (pool.go lines 121-126) are ready and
Go picks uniformly at random: with pick = true the task is handed to the
worker and executed, not rejected with ErrWorkerPoolFreed.  The state is
reached in a capacity-1 pool by one dispatcher spawn followed by
`close(p.quit)`. -/
theorem C4_counterexample_submit_after_quit_delivers :
    ∃ s, Reachable (initState 1) s ∧ s.quitClosed = true ∧
      hasIdleWorker s = true ∧
      scheduleSelect s.quitClosed (hasIdleWorker s) true =
        ScheduleResult.delivered := by
  refine ⟨_, Reachable.step (Reachable.step Reachable.refl
    (Step.spawn (initState 1) rfl (by decide))) (Step.closeQuit _ rfl),
    rfl, by decide, by decide⟩

/-- Claim C4 as amended.  Once quit is closed and the WaitGroup counter
has drained to zero — the situation at and after the return of Free, so
in particular in the scenario pool-Shutdown-then-Submit — no worker is
live, hence none is a ready receiver on `tasks`, and the `select` of
Schedule deterministically returns ErrWorkerPoolFreed whatever its random
pick: the task is never executed.  While live workers are still draining,
the select race of the counterexample may deliver the task instead. -/
theorem C4_submit_after_shutdown_rejected :
    ∀ cc s pick, Reachable (initState cc) s → s.quitClosed = true →
      s.wg = 0 →
      hasIdleWorker s = false ∧
      scheduleSelect s.quitClosed (hasIdleWorker s) pick =
        ScheduleResult.poolClosed := by
  intro cc s pick h hq hw
  obtain ⟨h1, h2, _, _⟩ := inv_reachable (inv_initState cc) h
  have hnil : s.workers = [] := List.length_eq_zero.mp (by omega)
  have hidle : hasIdleWorker s = false := by simp [hasIdleWorker, hnil]
  refine ⟨hidle, ?_⟩
  rw [hq, hidle]
  cases pick <;> rfl

theorem C4_submit_after_shutdown_witness :
    hasIdleWorker { initState 0 with quitClosed := true } = false ∧
    scheduleSelect ({ initState 0 with quitClosed := true } : PoolState).quitClosed
      (hasIdleWorker { initState 0 with quitClosed := true }) true =
      ScheduleResult.poolClosed :=
  C4_submit_after_shutdown_rejected 0 _ true
    (Reachable.step Reachable.refl (Step.closeQuit (initState 0) rfl)) rfl rfl

/-- Claim C5.  A task that panics is contained by the worker-local
deferred recover (pool.go lines 90-96): exactly the faulting worker
leaves, every other worker is untouched, the worker's token is released
(`<-p.active`, tokens drop by one) and the WaitGroup is decremented
(`wg.Done()`).  The pool stays open, and the dispatcher can immediately
reuse the freed token to spawn a replacement, restoring the WaitGroup
count and providing an idle worker, so the `select` of Schedule can again
deliver a subsequent task. -/
theorem C5_panic_isolated_pool_survives :
    ∀ cc s l₁ l₂ i pick, Reachable (initState cc) s →
      s.workers = l₁ ++ ⟨i, WorkerState.running true⟩ :: l₂ →
      s.quitClosed = false →
      ∃ s', Step s s' ∧ s'.workers = l₁ ++ l₂ ∧
        s'.tokens + 1 = s.tokens ∧ s'.wg + 1 = s.wg ∧
        s'.quitClosed = false ∧
        ∃ s'', Step s' s'' ∧
          s''.workers = (l₁ ++ l₂) ++ [⟨s.nextId + 1, WorkerState.idle⟩] ∧
          s''.wg = s.wg ∧ hasIdleWorker s'' = true ∧
          scheduleSelect s''.quitClosed (hasIdleWorker s'') pick =
            ScheduleResult.delivered := by
  intro cc s l₁ l₂ i pick h hw hq
  obtain ⟨h1, h2, h3, h4⟩ := inv_reachable (inv_initState cc) h
  have hlen : 1 ≤ s.workers.length := by
    rw [hw]; simp only [List.length_append, List.length_cons]; omega
  have hdd : s.dispatcherDone = false := by
    cases hdisp : s.dispatcherDone with
    | false => rfl
    | true => rw [h4 hdisp] at hq; exact Bool.noConfusion hq
  refine ⟨_, Step.panicExit s l₁ l₂ i hw (by omega), rfl, ?_, ?_, hq, ?_⟩
  · dsimp only; omega
  · dsimp only; omega
  · refine ⟨_, Step.spawn _ hdd (by dsimp only; omega), rfl, ?_, ?_, ?_⟩
    · dsimp only; omega
    · simp [hasIdleWorker]
    · have : hasIdleWorker { s with
          workers := (l₁ ++ l₂) ++ [⟨s.nextId + 1, WorkerState.idle⟩],
          tokens := s.tokens - 1 + 1,
          wg := s.wg - 1 + 1,
          nextId := s.nextId + 1,
          usedIds := s.usedIds ++ [s.nextId + 1] } = true := by
        simp [hasIdleWorker]
      rw [this, hq]
      cases pick <;> rfl

theorem C5_panic_isolated_witness :
    ∃ s', Step ⟨2, 1, [⟨1, WorkerState.running true⟩], 1, false, 1, false, [1]⟩ s' ∧
      s'.workers = [] ++ [] ∧ s'.tokens + 1 = 1 ∧ s'.wg + 1 = 1 ∧
      s'.quitClosed = false ∧
      ∃ s'', Step s' s'' ∧
        s''.workers = ([] ++ []) ++ [⟨2, WorkerState.idle⟩] ∧
        s''.wg = 1 ∧ hasIdleWorker s'' = true ∧
        scheduleSelect s''.quitClosed (hasIdleWorker s'') true =
          ScheduleResult.delivered :=
  C5_panic_isolated_pool_survives 2 _ [] [] 1 true
    (Reachable.step (Reachable.step Reachable.refl
      (Step.spawn (initState 2) rfl (by decide)))
      (Step.receiveTask _ [] [] 1 true rfl))
    rfl rfl

/-- Claim C6.  Free does `close(p.quit)` then `p.wg.Wait()` (pool.go
lines 114-118), returning exactly when the WaitGroup counter is zero.
First and second conjuncts: in any reachable state (from a lazy or a
completed pre-allocated construction) with quit closed and the WaitGroup
drained, no worker is live and zero tokens remain buffered in `active` —
every worker released its token, since `wg.Done()` runs only after the
exiting worker's `<-p.active`.  Third conjunct: a step that removes a
worker removes one that was idle (it observed quit between tasks) or one
whose task panicked — a worker in the middle of a normally-terminating
task is never removed, so a running task finishes before its worker
observes shutdown. -/
theorem C6_shutdown_waits_for_drain :
    (∀ cc s, Reachable (initState cc) s → s.quitClosed = true →
      s.wg = 0 → s.workers = [] ∧ s.tokens = 0) ∧
    (∀ cc s, 100 ≤ cc → Reachable (preAllocState cc) s →
      s.quitClosed = true → s.wg = 0 → s.workers = [] ∧ s.tokens = 0) ∧
    (∀ s s', Step s s' → s'.workers.length < s.workers.length →
      ∃ l₁ i l₂,
        (s.quitClosed = true ∧
          s.workers = l₁ ++ ⟨i, WorkerState.idle⟩ :: l₂ ∧
          s'.workers = l₁ ++ l₂) ∨
        (s.workers = l₁ ++ ⟨i, WorkerState.running true⟩ :: l₂ ∧
          s'.workers = l₁ ++ l₂)) := by
  refine ⟨?_, ?_, fun s s' h hl => exit_only_idle_or_faulted h hl⟩
  · intro cc s h hq hw
    obtain ⟨h1, h2, _, _⟩ := inv_reachable (inv_initState cc) h
    have hnil : s.workers = [] := List.length_eq_zero.mp (by omega)
    exact ⟨hnil, by omega⟩
  · intro cc s hcc h hq hw
    obtain ⟨h1, h2, _, _⟩ := inv_reachable (inv_preAllocState cc hcc) h
    have hnil : s.workers = [] := List.length_eq_zero.mp (by omega)
    exact ⟨hnil, by omega⟩

theorem C6_shutdown_drain_witness :
    ({ initState 0 with quitClosed := true } : PoolState).workers = [] ∧
    ({ initState 0 with quitClosed := true } : PoolState).tokens = 0 :=
  C6_shutdown_waits_for_drain.1 0 _
    (Reachable.step Reachable.refl (Step.closeQuit (initState 0) rfl)) rfl rfl

/-- Claim C9, counterexample.  The dispatcher's id counter in `run`
starts over at 0 (pool.go line 75) independently of the ids 1..100 used
by the pre-allocation loop, so after a pre-allocated worker exits the
dispatcher spawns its replacement with id 1 — an id already used.  The
run: pre-allocated pool with capacity 100; worker 1 receives a faulting
task and panics out; the dispatcher reuses the freed token and spawns a
worker again numbered 1. -/
theorem C9_counterexample_id_reused_after_prealloc :
    ∃ s, Reachable (preAllocState 100) s ∧ ¬ s.usedIds.Nodup := by
  refine ⟨_, Reachable.step (Reachable.step (Reachable.step Reachable.refl
    (Step.receiveTask (preAllocState 100) [] ((idleWorkers 100).drop 1) 1 true
      (by decide)))
    (Step.panicExit _ [] ((idleWorkers 100).drop 1) 1 rfl (by decide)))
    (Step.spawn _ rfl (by decide)), ?_⟩
  decide

/-- Claim C9 as amended.  For pools created without pre-allocation every
spawn goes through `run`, whose counter increments before each
`newWorker`: the sequence of ids handed out is strictly increasing, so no
id is ever reused.  With pre-allocation, ids restart at 1 in the
dispatcher and collide with the pre-allocated ids 1..100, as the
counterexample shows. -/
theorem C9_ids_strictly_increasing_without_prealloc :
    ∀ cc s, Reachable (initState cc) s →
      s.usedIds.Pairwise (· < ·) ∧ s.usedIds.Nodup := by
  intro cc s h
  have hi := idInv_reachable h
  exact ⟨hi.1, hi.1.imp fun hab => Nat.ne_of_lt hab⟩

theorem C9_ids_witness :
    ∃ s, Reachable (initState 5) s ∧
      s.usedIds.Pairwise (· < ·) ∧ s.usedIds.Nodup :=
  let h := Reachable.step (Reachable.step Reachable.refl
    (Step.spawn (initState 5) rfl (by decide))) (Step.spawn _ rfl (by decide))
  ⟨_, h, C9_ids_strictly_increasing_without_prealloc 5 _ h⟩

/-- Claim C10.  Capacity 0 is not clamped (only negative or > 1000 is),
so `active` has buffer size 0.  In every reachable state of such a pool
no worker exists and no token was ever buffered — the dispatcher's send
can never complete since no worker ever receives from `active` — and
`usedIds = []` shows no worker was ever spawned.  Consequently Schedule
has no ready receiver: its `select` blocks while quit is open and returns
ErrWorkerPoolFreed once quit is closed. -/
theorem C10_zero_capacity_never_spawns :
    clampCapacity 0 = 0 ∧
    ∀ s pick, Reachable (initState 0) s →
      s.workers = [] ∧ s.tokens = 0 ∧ s.usedIds = [] ∧
      scheduleSelect s.quitClosed (hasIdleWorker s) pick =
        (if s.quitClosed = true then ScheduleResult.poolClosed
         else ScheduleResult.blocked) := by
  refine ⟨by decide, ?_⟩
  intro s pick h
  obtain ⟨h1, h2, h3, _⟩ := inv_reachable (inv_initState 0) h
  have hc := activeCap_reachable h
  simp only [initState] at hc
  have hnil : s.workers = [] := List.length_eq_zero.mp (by omega)
  have hidle : hasIdleWorker s = false := by simp [hasIdleWorker, hnil]
  refine ⟨hnil, by omega, usedIds_empty_zero_cap h, ?_⟩
  rw [hidle]
  cases hq : s.quitClosed <;> cases pick <;> rfl

theorem C10_zero_capacity_witness :
    (initState 0).workers = [] ∧ (initState 0).tokens = 0 ∧
    (initState 0).usedIds = [] ∧
    scheduleSelect (initState 0).quitClosed (hasIdleWorker (initState 0)) true =
      (if (initState 0).quitClosed = true then ScheduleResult.poolClosed
       else ScheduleResult.blocked) :=
  C10_zero_capacity_never_spawns.2 (initState 0) true Reachable.refl

end MiniWorkerPool
